import Mathlib

/-
  Verification development for the microgrid monitoring dashboard
  (src/streamlit_app.py).

  The script is embedded shallowly:
  * JSON values exchanged with the remote API become the inductive `Json`;
    Python dict indexing `d[k]`, `d.get(k, default)`, numeric coercion for
    format specifiers / arithmetic, and `len(...)` become `Except`-valued
    operations that raise the corresponding Python exception
    (`KeyError`, `TypeError`, `AttributeError`, ...).
  * Each HTTP request's outcome (status code, body decodability, network
    error, timeout) is an `HttpOutcome` value supplied as an oracle; the
    three fetch functions are total functions of that oracle, mirroring the
    `try`/`except` structure of the source.
  * One render cycle of the module-level Streamlit script becomes
    `dashboardCycle`, a function from the fetched values to
    `Except PyErr (List Elem)`: `.ok trace` is a completed cycle emitting the
    listed display elements in order, `.error e` is a cycle aborted by an
    uncaught Python exception `e`.  Streamlit widgets are abstracted to the
    `Elem` constructors carrying the values the script passes to them;
    numbers are rationals.
-/

namespace Microgrid

/-- JSON values as decoded by `response.json()`. -/
inductive Json where
  | null
  | bool (b : Bool)
  | num (q : ℚ)
  | str (s : String)
  | arr (elems : List Json)
  | obj (fields : List (String × Json))

/-- Python exceptions that the script's operations can raise. -/
inductive PyErr where
  | keyError (k : String)
  | typeError
  | attributeError
  | valueError
  | requestError
  | timeoutError
  | jsonDecodeError
deriving DecidableEq

/-- Python truthiness of a decoded JSON value (`if data:`). -/
def Json.truthy : Json → Bool
  | .null => false
  | .bool b => b
  | .num q => decide (q ≠ 0)
  | .str s => !s.isEmpty
  | .arr xs => !xs.isEmpty
  | .obj fs => !fs.isEmpty

/-- Truthiness of an optional JSON value: `None` is falsy. -/
def truthyOpt : Option Json → Bool
  | none => false
  | some j => j.truthy

/-- Key lookup that yields `none` when the value is not an object or the key
is absent. -/
def Json.look : Json → String → Option Json
  | .obj fs, k => fs.lookup k
  | _, _ => none

/-- Python `d[k]`: `KeyError` when the key is absent, `TypeError` when `d` is
not a dict. -/
def Json.getField (j : Json) (k : String) : Except PyErr Json :=
  match j with
  | .obj fs =>
    match fs.lookup k with
    | some v => .ok v
    | none => .error (.keyError k)
  | _ => .error .typeError

/-- Python `d[k1][k2]`. -/
def Json.getField2 (j : Json) (k1 k2 : String) : Except PyErr Json := do
  (← j.getField k1).getField k2

/-- Python `d.get(k, default)`: total on dicts, `AttributeError` otherwise. -/
def Json.pyGet (j : Json) (k : String) (dflt : Json) : Except PyErr Json :=
  match j with
  | .obj fs => .ok ((fs.lookup k).getD dflt)
  | _ => .error .attributeError

/-- Numeric coercion demanded by a `:.1f` / `:.2f` format specifier, by an
arithmetic operator, or by a numeric comparison.  Python `bool` is an `int`.
Non-numeric values raise. -/
def Json.asNum : Json → Except PyErr ℚ
  | .num q => .ok q
  | .bool b => .ok (if b then 1 else 0)
  | _ => .error .typeError

/-- Python `len(...)`: defined on strings, lists and dicts, raises
`TypeError` otherwise. -/
def Json.pyLen : Json → Except PyErr ℕ
  | .str s => .ok s.length
  | .arr xs => .ok xs.length
  | .obj fs => .ok fs.length
  | _ => .error .typeError

/-- Python `j == "s"` for a string literal `s`: `True` exactly when `j` is the
equal string (comparison between different types is `False`, not an error). -/
def Json.beqStr : Json → String → Bool
  | .str t, s => t == s
  | _, _ => false

/-- Is this JSON value a number? -/
def Json.isNumV : Json → Bool
  | .num _ => true
  | _ => false

/-- Is this JSON value an object (Python dict)? -/
def Json.isObj : Json → Bool
  | .obj _ => true
  | _ => false

/-- Did this `Except` computation finish without an uncaught exception? -/
def isOkB {α : Type} (r : Except PyErr α) : Bool :=
  match r with
  | .ok _ => true
  | .error _ => false

/-! ## Data fetchers (src/streamlit_app.py lines 62-109) -/

/-- Outcome of one HTTP request, as seen by the script: a response with a
status code and a body (`none` when the body is not valid JSON), a network
error raised by the requests library, or a timeout. -/
inductive HttpOutcome where
  | response (status : ℕ) (body : Option Json)
  | netError
  | timeout

/-- Shared body of the three fetchers before their `try`/`except`:
`requests.get/post(...)` followed by `if response.status_code == 200: return
response.json() / return None`.  Network errors, timeouts and an undecodable
body on a 200 response raise; a non-200 response returns `None`. -/
def httpJsonResult (o : HttpOutcome) : Except PyErr (Option Json) :=
  match o with
  | .netError => .error .requestError
  | .timeout => .error .timeoutError
  | .response status body =>
    if status = 200 then
      match body with
      | some j => .ok (some j)
      | none => .error .jsonDecodeError
    else .ok none

/-- `fetch_sensor_data` (lines 62-72): the `except` clause emits a diagnostic
and returns `None`.  (The `st.cache_data(ttl=5)` memoization only dedups
calls within one cycle; both calls in a cycle see the same outcome.) -/
def fetch_sensor_data (o : HttpOutcome) : Option Json :=
  match httpJsonResult o with
  | .ok r => r
  | .error _ => none

/-- `fetch_model_info` (lines 74-83): bare `except` returning `None`. -/
def fetch_model_info (o : HttpOutcome) : Option Json :=
  match httpJsonResult o with
  | .ok r => r
  | .error _ => none

/-- Wall-clock calendar fields read from `datetime.now()` at call time. -/
structure Wallclock where
  month : ℕ
  day : ℕ
  weekday : ℕ
  dayOfYear : ℕ
deriving DecidableEq

/-- The request body `make_prediction` builds (lines 89-96): calendar fields
from the wall clock, hard-coded irradiance 800 and temperature 25.  The
`sensor_data` argument is never read. -/
def predictionPayload (now : Wallclock) (_sensor_data : Json) : List (String × Json) :=
  [("Month", .num now.month),
   ("Day", .num now.day),
   ("DayOfWeek", .num now.weekday),
   ("DayOfYear", .num now.dayOfYear),
   ("Irradiance_W_m2", .num 800),
   ("Temperature_C", .num 25)]

/-- `make_prediction` (lines 85-109): builds the payload, posts it, and
returns the decoded body on a 200 response, `None` on a non-200 response, and
`None` (after a diagnostic) when anything in the `try` block raises. -/
def make_prediction (now : Wallclock) (sensor_data : Json) (o : HttpOutcome) : Option Json :=
  let _payload := predictionPayload now sensor_data
  match httpJsonResult o with
  | .ok r => r
  | .error _ => none

/-- Request outcomes the error-handling claims quantify over: non-200 status,
network error, timeout, or a 200 response whose body is not valid JSON. -/
def isFailureOutcome : HttpOutcome → Bool
  | .netError => true
  | .timeout => true
  | .response status body => decide (status ≠ 200) || body.isNone

/-! ## View renderer -/

/-- The gauge chart configuration built at lines 255-268: a single
`go.Indicator` in gauge+number mode.  The axis range is the literal
`[None, 100]` — the lower bound is left to the plotting library. -/
structure Gauge where
  value : ℚ
  rangeLo : Option ℚ
  rangeHi : ℚ
  barColor : String
  steps : List (ℚ × ℚ × String)
deriving DecidableEq

/-- `go.Figure(go.Indicator(...))` with the script's literal configuration,
bound to the displayed prediction value. -/
def makeGauge (pred_value : ℚ) : Gauge :=
  ⟨pred_value, none, 100, "darkblue",
   [(0, 30, "lightgray"), (30, 70, "gray"), (70, 100, "darkgray")]⟩

/-- Which of the three energy-summary boxes is shown, with the number it
displays (lines 325-330). -/
inductive Balance where
  | surplusBox (v : ℚ)
  | deficitBox (v : ℚ)
  | balanceBox
deriving DecidableEq

/-- Lines 320-330: `surplus = total_generation - total_consumption`; the
surplus box shows the surplus, the deficit box shows `abs(surplus)`, the
balance box is taken exactly when the surplus is zero. -/
def energyBalance (sp bp load : ℚ) : Balance :=
  let surplus := sp + bp - load
  if surplus > 0 then .surplusBox surplus
  else if surplus < 0 then .deficitBox |surplus| else .balanceBox

/-- Line 231: `data['grid']['voltage'] > 220 and data['grid']['voltage'] < 240`. -/
def gridStatusNormal (v : ℚ) : Bool :=
  decide (v > 220) && decide (v < 240)

/-- Display elements the script emits, in emission order, abstracting the
Streamlit widgets; each carries the data the script passes to the widget. -/
inductive Elem where
  | caption (v : Json)
  | subheader (s : String)
  | metricNum (label : String) (value : ℚ) (delta : Json)
  | metricRaw (label : String) (value : Json) (delta : Json)
  | writeNum (label : String) (v : ℚ)
  | writeRaw (label : String) (v : Json)
  | progressBar (v : ℚ)
  | successBox (s : String)
  | warningBox (s : String)
  | errorBox (s : String)
  | infoBox (s : String)
  | infoVal (label : String) (v : Json)
  | gaugeChart (g : Gauge)
  | barChart (genY : List Json) (loadY : Json)
  | balanceElem (b : Balance)
  | predictCall
  | retryButton
  | sleepRerun (seconds : ℕ)
  | rerunNow

/-- Values read by the Real-Time Metrics row (lines 157-192), in access
order: power and load pass through a `:.2f` format (numeric), the other
metric values and deltas are interpolated as-is. -/
structure MetricsData where
  solarPower : ℚ
  solarEff : Json
  battLevel : Json
  battHealth : Json
  gridVolt : Json
  gridPF : Json
  loadVal : ℚ

/-- Field accesses of the Real-Time Metrics row. -/
def readMetrics (d : Json) : Except PyErr MetricsData := do
  let sp ← (← d.getField2 "solar" "power").asNum
  let seff ← d.getField2 "solar" "efficiency"
  let blev ← d.getField2 "battery" "level"
  let bh ← d.getField2 "battery" "health"
  let gv ← d.getField2 "grid" "voltage"
  let gpf ← d.getField2 "grid" "power_factor"
  let ld ← (← d.getField "load").asNum
  pure ⟨sp, seff, blev, bh, gv, gpf, ld⟩

/-- Widgets emitted by the Real-Time Metrics row. -/
def metricsElems (m : MetricsData) : List Elem :=
  [.metricNum "☀️ Solar Power" m.solarPower m.solarEff,
   .metricRaw "🔋 Battery Level" m.battLevel m.battHealth,
   .metricRaw "⚡ Grid Voltage" m.gridVolt m.gridPF,
   .metricNum "🏠 Load" m.loadVal (.str "Active")]

/-- Values read by the Detailed System Data row (lines 196-234), in access
order: `:.1f`/`:.2f` interpolations, the progress-bar divisions and the grid
voltage comparison need numbers; temperatures, captions, grid voltage line,
frequency and power factor are interpolated as-is. -/
structure DetailsData where
  sVolt : ℚ
  sCur : ℚ
  sPow : ℚ
  sTemp : Json
  sEffN : ℚ
  sEffRaw : Json
  bVolt : ℚ
  bCur : ℚ
  bPow : ℚ
  bTemp : Json
  bLevN : ℚ
  bLevRaw : Json
  gVoltRaw : Json
  gCur : ℚ
  gFreq : Json
  gPF : Json
  gVoltN : ℚ

/-- Field accesses of the Detailed System Data row. -/
def readDetails (d : Json) : Except PyErr DetailsData := do
  let sv ← (← d.getField2 "solar" "voltage").asNum
  let sc ← (← d.getField2 "solar" "current").asNum
  let sp ← (← d.getField2 "solar" "power").asNum
  let stmp ← d.getField2 "solar" "temperature"
  let seN ← (← d.getField2 "solar" "efficiency").asNum
  let seR ← d.getField2 "solar" "efficiency"
  let bv ← (← d.getField2 "battery" "voltage").asNum
  let bc ← (← d.getField2 "battery" "current").asNum
  let bp ← (← d.getField2 "battery" "power").asNum
  let btmp ← d.getField2 "battery" "temperature"
  let blN ← (← d.getField2 "battery" "level").asNum
  let blR ← d.getField2 "battery" "level"
  let gvR ← d.getField2 "grid" "voltage"
  let gc ← (← d.getField2 "grid" "current").asNum
  let gf ← d.getField2 "grid" "frequency"
  let gpf ← d.getField2 "grid" "power_factor"
  let gvN ← (← d.getField2 "grid" "voltage").asNum
  pure ⟨sv, sc, sp, stmp, seN, seR, bv, bc, bp, btmp, blN, blR, gvR, gc, gf, gpf, gvN⟩

/-- Widgets emitted by the Detailed System Data row; the grid status box
(lines 231-234) is chosen by `gridStatusNormal`. -/
def detailsElems (dd : DetailsData) : List Elem :=
  [.writeRaw "Solar Panel" (.str "header"),
   .writeNum "Voltage" dd.sVolt,
   .writeNum "Current" dd.sCur,
   .writeNum "Power" dd.sPow,
   .writeRaw "Temperature" dd.sTemp,
   .progressBar (dd.sEffN / 100),
   .caption dd.sEffRaw,
   .writeRaw "Battery System" (.str "header"),
   .writeNum "Voltage" dd.bVolt,
   .writeNum "Current" dd.bCur,
   .writeNum "Power" dd.bPow,
   .writeRaw "Temperature" dd.bTemp,
   .progressBar (dd.bLevN / 100),
   .caption dd.bLevRaw,
   .writeRaw "Grid Connection" (.str "header"),
   .writeRaw "Voltage" dd.gVoltRaw,
   .writeNum "Current" dd.gCur,
   .writeRaw "Frequency" dd.gFreq,
   .writeRaw "Power Factor" dd.gPF,
   if gridStatusNormal dd.gVoltN then .successBox "✓ Grid Normal"
   else .warningBox "⚠ Grid Abnormal"]

/-- The static warning of line 279, shown whenever the prediction is absent,
falsy, or does not report success. -/
def predWarnMsg : String := "⚠️ ML predictions unavailable. Check model status in sidebar."

/-- Values read in the success branch of the prediction section (lines
244-277): `prediction.get('prediction', 0)` feeds a `:.2f` format and the
gauge, `len(prediction.get('features_used', []))`, and the timestamp. -/
structure PredData where
  value : ℚ
  nFeatures : ℕ
  ts : Json

/-- Field accesses of the prediction success branch. -/
def readPredDetails (p : Json) : Except PyErr PredData := do
  let v ← (← p.pyGet "prediction" (.num 0)).asNum
  let nf ← (← p.pyGet "features_used" (.arr [])).pyLen
  let ts ← p.pyGet "timestamp" (.str "N/A")
  pure ⟨v, nf, ts⟩

/-- Widgets emitted by the prediction success branch, including the gauge. -/
def predElems (pd : PredData) : List Elem :=
  [.metricNum "🔮 Predicted Solar Output (Next Hour)" pd.value (.str "ML Forecast"),
   .gaugeChart (makeGauge pd.value),
   .writeRaw "Model Type" (.str "RandomForestRegressor"),
   .writeNum "Features Used" (pd.nFeatures : ℚ),
   .writeRaw "Prediction Time" pd.ts,
   .infoBox "💡 This prediction is based on historical patterns and current conditions."]

/-- Lines 243-279: `if prediction and prediction.get('status') == 'success':`
renders the metric, gauge and details, `else` the static warning.  The `and`
short-circuits, so `.get` is only reached on a truthy value. -/
def predSection (prediction : Option Json) : Except PyErr (List Elem) :=
  match prediction with
  | none => .ok [.warningBox predWarnMsg]
  | some p =>
    if p.truthy then do
      let status ← p.pyGet "status" .null
      if status.beqStr "success" then do
        let pd ← readPredDetails p
        pure (predElems pd)
      else pure [.warningBox predWarnMsg]
    else .ok [.warningBox predWarnMsg]

/-- Values read by the Energy Balance row (lines 288-330): the bar chart
uses the raw values, the summary re-reads them through `+`/`-` (numeric). -/
structure EnergyData where
  spJ : Json
  bpJ : Json
  loadJ : Json
  sp : ℚ
  bp : ℚ
  loadN : ℚ

/-- Field accesses of the Energy Balance row. -/
def readEnergy (d : Json) : Except PyErr EnergyData := do
  let spJ ← d.getField2 "solar" "power"
  let bpJ ← d.getField2 "battery" "power"
  let loadJ ← d.getField "load"
  let sp ← (← d.getField2 "solar" "power").asNum
  let bp ← (← d.getField2 "battery" "power").asNum
  let ld ← (← d.getField "load").asNum
  pure ⟨spJ, bpJ, loadJ, sp, bp, ld⟩

/-- Widgets emitted by the Energy Balance row: the grouped bar chart
(Generation `[solar.power, battery.power, 0]` vs Consumption `load`), the two
totals, and exactly one balance box chosen by `energyBalance`. -/
def energyElems (ed : EnergyData) : List Elem :=
  [.barChart [ed.spJ, ed.bpJ, .num 0] ed.loadJ,
   .writeNum "Total Generation" (ed.sp + ed.bp),
   .writeNum "Total Consumption" ed.loadN,
   .balanceElem (energyBalance ed.sp ed.bp ed.loadN)]

/-- The error branch of the main content (lines 336-341): error notice, the
API-URL info line, and the retry button; clicking the button calls
`st.rerun()`. -/
def errorTrace (retryClicked : Bool) : List Elem :=
  [.errorBox "❌ Unable to fetch data from API. Please check your connection.",
   .infoBox "API URL: https://rakhi5604.pythonanywhere.com",
   .retryButton] ++ (if retryClicked then [.rerunNow] else [])

/-- The main content area (lines 150-341).  `data` is the sensor fetch
result, `pred` the result `make_prediction` would return (the call itself is
recorded as the `predictCall` element), `interval` the slider value.  On a
truthy snapshot the four rows render in order and the cycle ends with
`time.sleep(refresh_interval); st.rerun()`; otherwise only the error branch
renders. -/
def renderMain (nowIso : String) (data : Option Json) (pred : Option Json)
    (interval : ℕ) (retryClicked : Bool) : Except PyErr (List Elem) :=
  match data with
  | some d =>
    if d.truthy then do
      let ts ← d.pyGet "timestamp" (.str nowIso)
      let m ← readMetrics d
      let dt ← readDetails d
      let ps ← predSection pred
      let es ← readEnergy d
      pure ([.caption ts, .subheader "📊 Real-Time Metrics"] ++ metricsElems m ++
        [.subheader "🔍 Detailed System Data"] ++ detailsElems dt ++
        [.subheader "🤖 AI/ML Predictions", .predictCall] ++ ps ++
        [.subheader "⚖️ Energy Balance"] ++ energyElems es ++
        [.sleepRerun interval])
    else .ok (errorTrace retryClicked)
  | none => .ok (errorTrace retryClicked)

/-- The model-status block of the sidebar (lines 129-134):
`if model_info and model_info.get('model_loaded'):` — truthy result shows the
active box and the model type, anything else the not-loaded warning. -/
def modelStatusElems (mi : Option Json) : Except PyErr (List Elem) :=
  match mi with
  | none => .ok [.warningBox "🤖 ML Model: Not Loaded"]
  | some m =>
    if m.truthy then do
      let ml ← m.pyGet "model_loaded" .null
      if ml.truthy then do
        let mt ← m.pyGet "model_type" (.str "Unknown")
        pure [.successBox "🤖 ML Model: Active", .infoVal "Model Type" mt]
      else pure [.warningBox "🤖 ML Model: Not Loaded"]
    else .ok [.warningBox "🤖 ML Model: Not Loaded"]

/-- The sidebar (lines 120-144): model status, then the API connection box
driven by `fetch_sensor_data()` — the 5-second cache makes it the same value
the main content sees. -/
def sidebar (mi : Option Json) (data : Option Json) : Except PyErr (List Elem) := do
  let ms ← modelStatusElems mi
  pure (ms ++ [if truthyOpt data then Elem.successBox "✓ API Connected"
               else Elem.errorBox "✗ API Disconnected"])

/-- `st.slider("Auto-refresh (seconds)", 5, 60, 10)` (line 124): the widget
starts at the default and only lets the user pick a value between the given
bounds; the chosen position is clamped to them. -/
def slider (lo hi dflt : ℕ) (choice : Option ℕ) : ℕ :=
  match choice with
  | none => dflt
  | some c => max lo (min hi c)

/-- One full render cycle of the module-level script: sidebar then main
content, with the slider value fed to the auto-refresh sleep. -/
def dashboardCycle (choice : Option ℕ) (nowIso : String) (mi : Option Json)
    (data : Option Json) (pred : Option Json) (retryClicked : Bool) :
    Except PyErr (List Elem) := do
  let interval := slider 5 60 10 choice
  let sb ← sidebar mi data
  let mn ← renderMain nowIso data pred interval retryClicked
  pure (sb ++ mn)

/-! ## Element classifiers and well-formedness -/

/-- Is this element the gauge chart? -/
def Elem.isGauge : Elem → Bool
  | .gaugeChart _ => true
  | _ => false

/-- Is this element the prediction-section static warning? -/
def Elem.isPredWarn : Elem → Bool
  | .warningBox s => s == predWarnMsg
  | _ => false

/-- Is this element a metric tile? -/
def Elem.isMetric : Elem → Bool
  | .metricNum _ _ _ => true
  | .metricRaw _ _ _ => true
  | _ => false

/-- Is this element the record of a `make_prediction` call? -/
def Elem.isPredictCall : Elem → Bool
  | .predictCall => true
  | _ => false

/-- Is this element the auto-refresh sleep-then-rerun? -/
def Elem.isSleepRerun : Elem → Bool
  | .sleepRerun _ => true
  | _ => false

/-- Is this element the rerun triggered by the retry button? -/
def Elem.isRerunNow : Elem → Bool
  | .rerunNow => true
  | _ => false

/-- Is this element the energy-balance box? -/
def Elem.isBalanceElem : Elem → Bool
  | .balanceElem _ => true
  | _ => false

/-- Data-derived content: metric tiles, detail writes, progress bars,
captions, charts, balance boxes, and the prediction call.  The error branch
must render none of these. -/
def Elem.isContent : Elem → Bool
  | .caption _ => true
  | .metricNum _ _ _ => true
  | .metricRaw _ _ _ => true
  | .writeNum _ _ => true
  | .writeRaw _ _ => true
  | .progressBar _ => true
  | .gaugeChart _ => true
  | .barChart _ _ => true
  | .balanceElem _ => true
  | .predictCall => true
  | .sleepRerun _ => true
  | _ => false

/-- Does the snapshot expose key `k2` of section `k1` as a number? -/
def numAt2 (d : Json) (k1 k2 : String) : Bool :=
  match d.look k1 with
  | some s =>
    match s.look k2 with
    | some v => v.isNumV
    | none => false
  | none => false

/-- Does the value expose key `k` as a number? -/
def numAt1 (d : Json) (k : String) : Bool :=
  match d.look k with
  | some v => v.isNumV
  | none => false

/-- A sensor snapshot carrying every field the script reads, with numeric
values — the shape the spec's data model describes. -/
def wfSnapshot (d : Json) : Bool :=
  d.isObj &&
  numAt2 d "solar" "voltage" && numAt2 d "solar" "current" &&
  numAt2 d "solar" "power" && numAt2 d "solar" "temperature" &&
  numAt2 d "solar" "efficiency" &&
  numAt2 d "battery" "voltage" && numAt2 d "battery" "current" &&
  numAt2 d "battery" "power" && numAt2 d "battery" "temperature" &&
  numAt2 d "battery" "level" && numAt2 d "battery" "health" &&
  numAt2 d "grid" "voltage" && numAt2 d "grid" "current" &&
  numAt2 d "grid" "frequency" && numAt2 d "grid" "power_factor" &&
  numAt1 d "load"

/-- A sensor-fetch result that is either absent, falsy, or a well-formed
snapshot. -/
def wfSnapshotOpt : Option Json → Bool
  | none => true
  | some d => !d.truthy || wfSnapshot d

/-- Can Python `len` be applied to this value? -/
def lenable : Json → Bool
  | .str _ => true
  | .arr _ => true
  | .obj _ => true
  | _ => false

/-- A prediction result the success branch can process: absent and falsy
results always work; a truthy one must be a dict whose optional `prediction`
field is numeric and whose optional `features_used` field has a length. -/
def wfPrediction : Option Json → Bool
  | none => true
  | some p =>
    !p.truthy ||
    (p.isObj &&
     (match p.look "prediction" with
      | some v => v.isNumV
      | none => true) &&
     (match p.look "features_used" with
      | some v => lenable v
      | none => true))

/-- A model-info result the sidebar can process: absent or falsy, or a dict. -/
def wfModelInfo : Option Json → Bool
  | none => true
  | some m => !m.truthy || m.isObj

/-! ## Concrete sample data for witnesses and counterexamples -/

/-- A representative well-formed sensor snapshot. -/
def sampleData : Json := .obj [
  ("timestamp", .str "2026-10-12T10:00:00"),
  ("solar", .obj [("voltage", .num 48), ("current", .num 20), ("power", .num 3),
                  ("temperature", .num 35), ("efficiency", .num 18)]),
  ("battery", .obj [("voltage", .num 24), ("current", .num 10), ("power", .num 1),
                    ("temperature", .num 30), ("level", .num 75), ("health", .num 95)]),
  ("grid", .obj [("voltage", .num 230), ("current", .num 5), ("frequency", .num 50),
                 ("power_factor", .num 1)]),
  ("load", .num 5)]

/-- A successful prediction result with value 42. -/
def samplePred : Json := .obj [
  ("status", .str "success"), ("prediction", .num 42),
  ("features_used", .arr [.str "Month", .str "Day"]),
  ("timestamp", .str "2026-10-12T10:00:01")]

/-- A model-info result reporting the model as not loaded. -/
def sampleMiNotLoaded : Json := .obj [("model_loaded", .bool false)]

/-- Sample details row data with grid voltage 230. -/
def dd230 : DetailsData :=
  ⟨48, 20, 3, .num 35, 18, .num 18, 24, 10, 1, .num 30, 75, .num 75,
   .num 230, 5, .num 50, .num 1, 230⟩

/-- Sample details row data with grid voltage 240. -/
def dd240 : DetailsData :=
  ⟨48, 20, 3, .num 35, 18, .num 18, 24, 10, 1, .num 30, 75, .num 75,
   .num 240, 5, .num 50, .num 1, 240⟩

/-- The condition of line 243, `prediction and prediction.get('status') ==
'success'`, as a predicate on the fetched prediction. -/
def predSuccessB : Option Json → Bool
  | none => false
  | some p =>
    p.truthy &&
    (match p.pyGet "status" Json.null with
     | .ok s => s.beqStr "success"
     | .error _ => false)

/-- Is this element the retry button? -/
def Elem.isRetryButton : Elem → Bool
  | .retryButton => true
  | _ => false

/-! ## Inversion helpers for the `Except` embedding -/

/-- Inverting a successful bind: both stages succeeded. -/
theorem bind_ok {α β : Type} {m : Except PyErr α} {k : α → Except PyErr β} {b : β}
    (h : m >>= k = .ok b) : ∃ a, m = .ok a ∧ k a = .ok b := by
  cases m with
  | ok a => exact ⟨a, rfl, h⟩
  | error e => simp [Bind.bind, Except.bind] at h

/-- A computation observed to succeed yields a value. -/
theorem isOkB_exists {α : Type} {r : Except PyErr α} (h : isOkB r = true) :
    ∃ a, r = .ok a := by
  cases r with
  | ok a => exact ⟨a, rfl⟩
  | error e => simp [isOkB] at h

/-- A successful `look` refines to a successful `getField`. -/
theorem look_getField {d : Json} {k : String} {v : Json} (h : d.look k = some v) :
    d.getField k = .ok v := by
  cases d <;> simp_all [Json.look, Json.getField]

/-- A two-level numeric field yields its number through `getField2`. -/
theorem numAt2_getField2 {d : Json} {k1 k2 : String} (h : numAt2 d k1 k2 = true) :
    ∃ q : ℚ, d.getField2 k1 k2 = .ok (.num q) := by
  unfold numAt2 at h
  cases h1 : d.look k1 with
  | none => simp only [h1] at h; exact absurd h (by decide)
  | some s =>
    simp only [h1] at h
    cases h2 : s.look k2 with
    | none => simp only [h2] at h; exact absurd h (by decide)
    | some v =>
      simp only [h2] at h
      cases v <;> simp [Json.isNumV] at h
      case num q =>
        refine ⟨q, ?_⟩
        simp [Json.getField2, look_getField h1, look_getField h2, Bind.bind, Except.bind]

/-- `pyGet` always succeeds on a dict. -/
theorem pyGet_ok_of_isObj {d : Json} (h : d.isObj = true) (k : String) (dflt : Json) :
    ∃ v, d.pyGet k dflt = .ok v := by
  cases d <;> simp_all [Json.isObj, Json.pyGet]

/-! ## Claim C2 -/

/-- C2: for every request outcome that is a non-200 status, a network error,
a timeout, or a 200 response whose body is not valid JSON, all three fetch
operations return the absence value `None`; their `try`/`except` bodies make
them total, so no exception reaches the caller. -/
theorem c2_fetch_absent_on_failure (o : HttpOutcome) (now : Wallclock) (sd : Json)
    (h : isFailureOutcome o = true) :
    fetch_sensor_data o = none ∧ fetch_model_info o = none ∧
    make_prediction now sd o = none := by
  cases o with
  | netError => exact ⟨rfl, rfl, rfl⟩
  | timeout => exact ⟨rfl, rfl, rfl⟩
  | response status body =>
    simp only [isFailureOutcome, Bool.or_eq_true, decide_eq_true_eq,
      Option.isNone_iff_eq_none] at h
    rcases h with h | h
    · simp [fetch_sensor_data, fetch_model_info, make_prediction, httpJsonResult, h]
    · subst h
      by_cases h2 : status = 200 <;>
        simp [fetch_sensor_data, fetch_model_info, make_prediction, httpJsonResult, h2]

/-- Witness for C2 at a concrete HTTP 500 outcome. -/
theorem c2_fetch_absent_on_failure_witness :
    isFailureOutcome (.response 500 none) = true ∧
    fetch_sensor_data (.response 500 none) = none ∧
    fetch_model_info (.response 500 none) = none ∧
    make_prediction ⟨10, 12, 6, 285⟩ Json.null (.response 500 none) = none := by
  have h := c2_fetch_absent_on_failure (.response 500 none) ⟨10, 12, 6, 285⟩
    Json.null (by decide)
  exact ⟨by decide, h.1, h.2.1, h.2.2⟩

/-! ## Claim C3 -/

/-- C3: the energy summary computes `surplus = solar.power + battery.power -
load`; a positive surplus shows the surplus box with that value, a negative
one the deficit box with the absolute value, and exactly zero the balance
box; the energy row displays exactly one balance box, the one chosen by
`energyBalance`. -/
theorem c3_energy_balance (sp bp load : ℚ) :
    (sp + bp - load > 0 → energyBalance sp bp load = .surplusBox (sp + bp - load)) ∧
    (sp + bp - load < 0 → energyBalance sp bp load = .deficitBox |sp + bp - load|) ∧
    (sp + bp - load = 0 → energyBalance sp bp load = .balanceBox) ∧
    ∀ spJ bpJ loadJ : Json,
      (energyElems ⟨spJ, bpJ, loadJ, sp, bp, load⟩).filter Elem.isBalanceElem
        = [.balanceElem (energyBalance sp bp load)] := by
  refine ⟨fun h => ?_, fun h => ?_, fun h => ?_, fun spJ bpJ loadJ => ?_⟩
  · simp [energyBalance, h]
  · have h2 : ¬ (sp + bp - load > 0) := by linarith
    simp [energyBalance, h, h2]
  · simp [energyBalance, h]
  · simp [energyElems, List.filter, Elem.isBalanceElem]

/-- Witness for C3 at the spec's end-to-end scenario: solar 3.2 kW, battery
1.1 kW, load 5.0 kW gives a 0.7 kW deficit. -/
theorem c3_energy_balance_witness :
    (3.2 : ℚ) + 1.1 - 5 < 0 ∧ energyBalance 3.2 1.1 5 = .deficitBox 0.7 := by
  have hneg : (3.2 : ℚ) + 1.1 - 5 < 0 := by norm_num
  have h := (c3_energy_balance 3.2 1.1 5).2.1 hneg
  have habs : |(3.2 : ℚ) + 1.1 - 5| = 0.7 := by norm_num
  rw [habs] at h
  exact ⟨hneg, h⟩

/-! ## Claim C4 -/

/-- C4: the grid status indicator shows the Normal box exactly when the grid
voltage lies in the open interval (220, 240), and the Abnormal box otherwise;
both boundary values 220 and 240 fail the strict comparisons. -/
theorem c4_grid_status (dd : DetailsData) :
    ((Elem.successBox "✓ Grid Normal") ∈ detailsElems dd ↔
      (220 < dd.gVoltN ∧ dd.gVoltN < 240)) ∧
    ((Elem.warningBox "⚠ Grid Abnormal") ∈ detailsElems dd ↔
      ¬ (220 < dd.gVoltN ∧ dd.gVoltN < 240)) ∧
    gridStatusNormal 220 = false ∧ gridStatusNormal 240 = false := by
  by_cases h : 220 < dd.gVoltN ∧ dd.gVoltN < 240
  · have hg : gridStatusNormal dd.gVoltN = true := by
      simp [gridStatusNormal, h.1, h.2]
    refine ⟨?_, ?_, by decide, by decide⟩ <;> simp [detailsElems, hg, h]
  · have hg : gridStatusNormal dd.gVoltN = false := by
      rw [Bool.eq_false_iff]
      intro hc
      exact h (by simpa [gridStatusNormal] using hc)
    refine ⟨?_, ?_, by decide, by decide⟩ <;> simp [detailsElems, hg, h]

/-- Witness for C4 at voltages 230 (Normal) and 240 (Abnormal). -/
theorem c4_grid_status_witness :
    Elem.successBox "✓ Grid Normal" ∈ detailsElems dd230 ∧
    Elem.warningBox "⚠ Grid Abnormal" ∈ detailsElems dd240 := by
  constructor
  · exact (c4_grid_status dd230).1.mpr (by constructor <;> norm_num [dd230])
  · exact (c4_grid_status dd240).2.1.mpr (by norm_num [dd240])

/-! ## Claim C6 -/

/-- C6: the prediction request body is identical for any two snapshots taken
at the same wall-clock time — irradiance is always the constant 800 and
temperature always the constant 25, and the calendar fields come only from
the wall clock. -/
theorem c6_payload_snapshot_independent (now : Wallclock) (s1 s2 : Json) :
    predictionPayload now s1 = predictionPayload now s2 ∧
    (predictionPayload now s1).lookup "Irradiance_W_m2" = some (.num 800) ∧
    (predictionPayload now s1).lookup "Temperature_C" = some (.num 25) ∧
    (predictionPayload now s1).lookup "Month" = some (.num now.month) ∧
    (predictionPayload now s1).lookup "Day" = some (.num now.day) ∧
    (predictionPayload now s1).lookup "DayOfWeek" = some (.num now.weekday) ∧
    (predictionPayload now s1).lookup "DayOfYear" = some (.num now.dayOfYear) :=
  ⟨rfl, rfl, rfl, rfl, rfl, rfl, rfl⟩

/-! ## Trace classification lemmas -/

/-- The metrics row emits no gauge and no prediction warning. -/
theorem metricsElems_marks (m : MetricsData) :
    (metricsElems m).any Elem.isGauge = false ∧
    (metricsElems m).any Elem.isPredWarn = false := by
  simp [metricsElems, Elem.isGauge, Elem.isPredWarn]

/-- The details row emits no gauge and no prediction warning (its grid
warning carries a different message). -/
theorem detailsElems_marks (dd : DetailsData) :
    (detailsElems dd).any Elem.isGauge = false ∧
    (detailsElems dd).any Elem.isPredWarn = false := by
  by_cases h : gridStatusNormal dd.gVoltN <;>
    simp [detailsElems, h, Elem.isGauge, Elem.isPredWarn, predWarnMsg]

/-- The energy row emits no gauge and no prediction warning. -/
theorem energyElems_marks (ed : EnergyData) :
    (energyElems ed).any Elem.isGauge = false ∧
    (energyElems ed).any Elem.isPredWarn = false := by
  simp [energyElems, Elem.isGauge, Elem.isPredWarn]

/-- The prediction success branch emits a gauge and no warning. -/
theorem predElems_marks (pd : PredData) :
    (predElems pd).any Elem.isGauge = true ∧
    (predElems pd).any Elem.isPredWarn = false := by
  simp [predElems, Elem.isGauge, Elem.isPredWarn]

/-- The error branch emits no content and no gauge; it reruns exactly when
the retry button was clicked. -/
theorem errorTrace_marks (c : Bool) :
    (errorTrace c).any Elem.isGauge = false ∧
    (errorTrace c).any Elem.isPredWarn = false ∧
    (errorTrace c).any Elem.isSleepRerun = false ∧
    (errorTrace c).any Elem.isRerunNow = c ∧
    (errorTrace c).any Elem.isRetryButton = true ∧
    (errorTrace c).any Elem.isContent = false := by
  cases c <;> decide

/-- The sidebar model-status block emits only status boxes: no gauge, no
prediction warning, no sleep, no rerun, no prediction call, no retry
button. -/
theorem modelStatusElems_marks {mi : Option Json} {l : List Elem}
    (h : modelStatusElems mi = .ok l) :
    l.any Elem.isGauge = false ∧ l.any Elem.isPredWarn = false ∧
    l.any Elem.isSleepRerun = false ∧ l.any Elem.isRerunNow = false ∧
    l.any Elem.isPredictCall = false ∧ l.any Elem.isRetryButton = false := by
  cases mi with
  | none =>
    simp only [modelStatusElems] at h
    injection h with h
    subst h
    decide
  | some m =>
    simp only [modelStatusElems] at h
    by_cases ht : m.truthy = true
    · rw [if_pos ht] at h
      obtain ⟨ml, hml, h⟩ := bind_ok h
      by_cases ht2 : ml.truthy = true
      · rw [if_pos ht2] at h
        obtain ⟨mt, hmt, h⟩ := bind_ok h
        simp only [pure, Except.pure] at h
        injection h with h
        subst h
        simp [Elem.isGauge, Elem.isPredWarn, Elem.isSleepRerun, Elem.isRerunNow,
          Elem.isPredictCall, Elem.isRetryButton]
      · rw [if_neg ht2] at h
        simp only [pure, Except.pure] at h
        injection h with h
        subst h
        decide
    · rw [if_neg ht] at h
      injection h with h
      subst h
      decide

/-- The sidebar emits no gauge, no prediction warning, no sleep, no rerun,
no prediction call and no retry button. -/
theorem sidebar_marks {mi data : Option Json} {l : List Elem}
    (h : sidebar mi data = .ok l) :
    l.any Elem.isGauge = false ∧ l.any Elem.isPredWarn = false ∧
    l.any Elem.isSleepRerun = false ∧ l.any Elem.isRerunNow = false ∧
    l.any Elem.isPredictCall = false ∧ l.any Elem.isRetryButton = false := by
  unfold sidebar at h
  obtain ⟨ms, hms, h⟩ := bind_ok h
  simp only [pure, Except.pure] at h
  injection h with h
  subst h
  obtain ⟨h1, h2, h3, h4, h5, h6⟩ := modelStatusElems_marks hms
  cases hc : truthyOpt data <;>
    simp [List.any_append, h1, h2, h3, h4, h5, h6, hc, Elem.isGauge, Elem.isPredWarn,
      Elem.isSleepRerun, Elem.isRerunNow, Elem.isPredictCall, Elem.isRetryButton]

/-- Inverting a completed prediction section: the gauge appears exactly when
the line-243 condition holds, and the static warning exactly otherwise. -/
theorem predSection_marks {pred : Option Json} {l : List Elem}
    (h : predSection pred = .ok l) :
    l.any Elem.isGauge = predSuccessB pred ∧
    l.any Elem.isPredWarn = !(predSuccessB pred) ∧
    l.any Elem.isSleepRerun = false ∧ l.any Elem.isRerunNow = false ∧
    l.any Elem.isPredictCall = false ∧ l.any Elem.isRetryButton = false := by
  cases pred with
  | none =>
    simp only [predSection] at h
    injection h with h
    subst h
    decide
  | some p =>
    simp only [predSection] at h
    by_cases ht : p.truthy = true
    · rw [if_pos ht] at h
      obtain ⟨s, hs, h⟩ := bind_ok h
      by_cases hb : s.beqStr "success" = true
      · rw [if_pos hb] at h
        obtain ⟨pd, hpd, h⟩ := bind_ok h
        simp only [pure, Except.pure] at h
        injection h with h
        subst h
        have hps : predSuccessB (some p) = true := by
          simp [predSuccessB, ht, hs, hb]
        simp [hps, predElems, Elem.isGauge, Elem.isPredWarn, Elem.isSleepRerun,
          Elem.isRerunNow, Elem.isPredictCall, Elem.isRetryButton]
      · rw [if_neg hb] at h
        simp only [pure, Except.pure] at h
        injection h with h
        subst h
        have hps : predSuccessB (some p) = false := by
          simp [predSuccessB, ht, hs]
          exact Bool.eq_false_iff.mpr hb
        simp [hps, Elem.isGauge, Elem.isPredWarn, Elem.isSleepRerun,
          Elem.isRerunNow, Elem.isPredictCall, Elem.isRetryButton, predWarnMsg]
    · rw [if_neg ht] at h
      injection h with h
      subst h
      have hps : predSuccessB (some p) = false := by
        simp [predSuccessB]
        intro hc
        exact absurd hc ht
      simp [hps, Elem.isGauge, Elem.isPredWarn, Elem.isSleepRerun,
        Elem.isRerunNow, Elem.isPredictCall, Elem.isRetryButton, predWarnMsg]

/-! ## Decomposition of a completed cycle -/

/-- Inverting a completed main render on a truthy snapshot: every row
succeeded and the trace is their concatenation, ending with the
sleep-then-rerun. -/
theorem renderMain_ok_of_truthy {nowIso : String} {d : Json} {pred : Option Json}
    {interval : ℕ} {clicked : Bool} {l : List Elem}
    (ht : d.truthy = true)
    (h : renderMain nowIso (some d) pred interval clicked = .ok l) :
    ∃ ts m dt ps es,
      d.pyGet "timestamp" (.str nowIso) = .ok ts ∧
      readMetrics d = .ok m ∧ readDetails d = .ok dt ∧
      predSection pred = .ok ps ∧ readEnergy d = .ok es ∧
      l = [.caption ts, .subheader "📊 Real-Time Metrics"] ++ metricsElems m ++
        [.subheader "🔍 Detailed System Data"] ++ detailsElems dt ++
        [.subheader "🤖 AI/ML Predictions", .predictCall] ++ ps ++
        [.subheader "⚖️ Energy Balance"] ++ energyElems es ++
        [.sleepRerun interval] := by
  simp only [renderMain] at h
  rw [if_pos ht] at h
  obtain ⟨ts, hts, h⟩ := bind_ok h
  obtain ⟨m, hm, h⟩ := bind_ok h
  obtain ⟨dt, hdt, h⟩ := bind_ok h
  obtain ⟨ps, hps, h⟩ := bind_ok h
  obtain ⟨es, hes, h⟩ := bind_ok h
  simp only [pure, Except.pure] at h
  injection h with h
  exact ⟨ts, m, dt, ps, es, hts, hm, hdt, hps, hes, h.symm⟩

/-- A completed main render on an absent or falsy snapshot is exactly the
error branch. -/
theorem renderMain_ok_of_falsy {nowIso : String} {data pred : Option Json}
    {interval : ℕ} {clicked : Bool} {l : List Elem}
    (ht : truthyOpt data = false)
    (h : renderMain nowIso data pred interval clicked = .ok l) :
    l = errorTrace clicked := by
  cases data with
  | none =>
    simp only [renderMain] at h
    injection h with h
    exact h.symm
  | some d =>
    simp only [truthyOpt] at ht
    simp only [renderMain] at h
    rw [if_neg (by simp [ht])] at h
    injection h with h
    exact h.symm

/-- Inverting a completed cycle: sidebar and main content both completed and
the trace is their concatenation, with the slider value as the refresh
interval. -/
theorem dashboardCycle_decomp {choice : Option ℕ} {nowIso : String}
    {mi data pred : Option Json} {clicked : Bool} {tr : List Elem}
    (h : dashboardCycle choice nowIso mi data pred clicked = .ok tr) :
    ∃ sb mn, sidebar mi data = .ok sb ∧
      renderMain nowIso data pred (slider 5 60 10 choice) clicked = .ok mn ∧
      tr = sb ++ mn := by
  simp only [dashboardCycle] at h
  obtain ⟨sb, hsb, h⟩ := bind_ok h
  obtain ⟨mn, hmn, h⟩ := bind_ok h
  simp only [pure, Except.pure] at h
  injection h with h
  exact ⟨sb, mn, hsb, hmn, h.symm⟩

/-! ## Claim C5 -/

/-- C5: when the sensor fetch returns absent, the main content area renders
exactly the error notice (with the API URL info line) and the retry button
(plus the rerun it triggers when clicked); no metric, no content element, no
gauge, and no prediction call appear in that cycle. -/
theorem c5_absent_data_error_panel (nowIso : String) (pred : Option Json)
    (interval : ℕ) (clicked : Bool) :
    renderMain nowIso none pred interval clicked = .ok (errorTrace clicked) ∧
    (errorTrace clicked).any Elem.isContent = false ∧
    (errorTrace clicked).any Elem.isMetric = false ∧
    (errorTrace clicked).any Elem.isGauge = false ∧
    (errorTrace clicked).any Elem.isPredictCall = false ∧
    (errorTrace clicked).any Elem.isRetryButton = true := by
  refine ⟨rfl, ?_, ?_, ?_, ?_, ?_⟩ <;> cases clicked <;> decide

/-! ## Claim C1 -/

/-- C1 counterexample: with the model reported as not loaded
(`model_loaded = false`) but a truthy prediction whose status is
`"success"`, the cycle completes and the gauge chart IS drawn and the static
warning is NOT shown — the prediction section never consults the model-info
result, so the claim as stated is false. -/
theorem c1_counterexample :
    Json.pyGet sampleMiNotLoaded "model_loaded" Json.null = .ok (Json.bool false) ∧
    (dashboardCycle (some 10) "t" (some sampleMiNotLoaded) (some sampleData)
        (some samplePred) false).toOption.map
      (fun tr => (tr.any Elem.isGauge, tr.any Elem.isPredWarn)) = some (true, false) := by
  exact ⟨rfl, rfl⟩

/-- C1 amended: in a completed cycle, the gauge chart appears exactly when
the sensor snapshot is truthy and the prediction result satisfies the
line-243 condition (truthy with status `"success"`), and the prediction
section's static warning appears exactly when the snapshot is truthy and
that condition fails; the model-info result plays no role in either. -/
theorem c1_gauge_iff_pred_success {choice : Option ℕ} {nowIso : String}
    {mi data pred : Option Json} {clicked : Bool} {tr : List Elem}
    (h : dashboardCycle choice nowIso mi data pred clicked = .ok tr) :
    tr.any Elem.isGauge = (truthyOpt data && predSuccessB pred) ∧
    tr.any Elem.isPredWarn = (truthyOpt data && !(predSuccessB pred)) := by
  obtain ⟨sb, mn, hsb, hmn, htr⟩ := dashboardCycle_decomp h
  subst htr
  obtain ⟨sg, sw, _, _, _, _⟩ := sidebar_marks hsb
  cases hdt : truthyOpt data with
  | false =>
    have hmn2 := renderMain_ok_of_falsy hdt hmn
    subst hmn2
    obtain ⟨eg, ew, _, _, _, _⟩ := errorTrace_marks clicked
    simp [List.any_append, sg, sw, eg, ew]
  | true =>
    cases data with
    | none => simp [truthyOpt] at hdt
    | some d =>
      have ht : d.truthy = true := hdt
      obtain ⟨ts, m, dt2, ps, es, hts, hm, hdd, hps, hes, hl⟩ :=
        renderMain_ok_of_truthy ht hmn
      subst hl
      obtain ⟨pg, pw, _, _, _, _⟩ := predSection_marks hps
      obtain ⟨mg, mw⟩ := metricsElems_marks m
      obtain ⟨dg, dw⟩ := detailsElems_marks dt2
      obtain ⟨eg, ew⟩ := energyElems_marks es
      simp [List.any_append, sg, sw, pg, pw, mg, mw, dg, dw, eg, ew,
        Elem.isGauge, Elem.isPredWarn]

/-- Witness for C1 amended: a cycle with a well-formed snapshot and a
non-success prediction shows the warning and no gauge. -/
theorem c1_gauge_iff_pred_success_witness :
    (dashboardCycle (some 10) "t" none (some sampleData)
        (some (Json.obj [("status", Json.str "error")])) false).toOption.map
      (fun tr => (tr.any Elem.isGauge, tr.any Elem.isPredWarn)) = some (false, true) := by
  obtain ⟨tr, htr⟩ : ∃ tr, dashboardCycle (some 10) "t" none (some sampleData)
      (some (Json.obj [("status", Json.str "error")])) false = .ok tr := ⟨_, rfl⟩
  obtain ⟨hg, hw⟩ := c1_gauge_iff_pred_success htr
  rw [htr]
  show some (tr.any Elem.isGauge, tr.any Elem.isPredWarn) = some (false, true)
  rw [hg, hw]
  rfl

/-! ## Claim C9 -/

/-- C9: the refresh interval always lies in the slider bounds 5..60; a
completed cycle on a truthy snapshot ends with the blocking
sleep-then-rerun for exactly that interval; a completed cycle on an absent
or falsy snapshot contains no sleep-then-rerun, offers the retry button,
and reruns exactly when the user clicked it. -/
theorem c9_refresh_driver {choice : Option ℕ} {nowIso : String}
    {mi data pred : Option Json} {clicked : Bool} {tr : List Elem}
    (h : dashboardCycle choice nowIso mi data pred clicked = .ok tr) :
    (5 ≤ slider 5 60 10 choice ∧ slider 5 60 10 choice ≤ 60) ∧
    (truthyOpt data = true →
      tr.getLast? = some (.sleepRerun (slider 5 60 10 choice))) ∧
    (truthyOpt data = false →
      tr.any Elem.isSleepRerun = false ∧
      tr.any Elem.isRerunNow = clicked ∧
      tr.any Elem.isRetryButton = true) := by
  obtain ⟨sb, mn, hsb, hmn, htr⟩ := dashboardCycle_decomp h
  subst htr
  obtain ⟨_, _, ss, sr, _, sB⟩ := sidebar_marks hsb
  refine ⟨?_, ?_, ?_⟩
  · cases choice with
    | none => simp [slider]
    | some c => simp only [slider]; omega
  · intro hdt
    cases data with
    | none => simp [truthyOpt] at hdt
    | some d =>
      obtain ⟨ts, m, dt2, ps, es, hts, hm, hdd, hps, hes, hl⟩ :=
        renderMain_ok_of_truthy hdt hmn
      subst hl
      rw [List.getLast?_append_of_ne_nil _ (by simp)]
      rw [List.getLast?_append_of_ne_nil _ (by simp)]
      rfl
  · intro hdt
    have hmn2 := renderMain_ok_of_falsy hdt hmn
    subst hmn2
    obtain ⟨_, _, es2, er, eB, _⟩ := errorTrace_marks clicked
    simp [List.any_append, ss, sr, sB, es2, er, eB]

/-- Witness for C9: a concrete successful cycle ends with a 7-second sleep,
and a concrete failed cycle only waits for the retry click. -/
theorem c9_refresh_driver_witness :
    (5 ≤ slider 5 60 10 (some 7) ∧ slider 5 60 10 (some 7) ≤ 60) ∧
    (dashboardCycle (some 7) "t" none (some sampleData) none false).toOption.map
      List.getLast? = some (some (.sleepRerun 7)) ∧
    (dashboardCycle (some 7) "t" none none none true).toOption.map
      (fun tr => (tr.any Elem.isSleepRerun, tr.any Elem.isRerunNow,
        tr.any Elem.isRetryButton)) = some (false, true, true) := by
  obtain ⟨tr1, h1⟩ : ∃ tr, dashboardCycle (some 7) "t" none (some sampleData)
      none false = .ok tr := ⟨_, rfl⟩
  obtain ⟨tr2, h2⟩ : ∃ tr, dashboardCycle (some 7) "t" none none none true
      = .ok tr := ⟨_, rfl⟩
  have k1 := c9_refresh_driver h1
  have k2 := c9_refresh_driver h2
  refine ⟨k1.1, ?_, ?_⟩
  · rw [h1]
    show some tr1.getLast? = some (some (.sleepRerun 7))
    rw [k1.2.1 (by decide)]
    rfl
  · rw [h2]
    show some (tr2.any Elem.isSleepRerun, tr2.any Elem.isRerunNow,
      tr2.any Elem.isRetryButton) = some (false, true, true)
    obtain ⟨a, b, c⟩ := k2.2.2 (by decide)
    rw [a, b, c]

/-! ## Well-formed inputs let every row complete -/

/-- An object value exposes its field list. -/
theorem isObj_exists {j : Json} (h : j.isObj = true) : ∃ fs, j = .obj fs := by
  cases j <;> simp_all [Json.isObj]

/-- A one-level numeric field yields its number through `getField`. -/
theorem numAt1_getField {d : Json} {k : String} (h : numAt1 d k = true) :
    ∃ q : ℚ, d.getField k = .ok (.num q) := by
  unfold numAt1 at h
  cases h1 : d.look k with
  | none => simp only [h1] at h; exact absurd h (by decide)
  | some v =>
    simp only [h1] at h
    cases v <;> simp [Json.isNumV] at h
    case num q => exact ⟨q, look_getField h1⟩

/-- A length-taking value yields a length through `pyLen`. -/
theorem lenable_pyLen {v : Json} (h : lenable v = true) :
    ∃ n, v.pyLen = .ok n := by
  cases v <;> simp_all [lenable, Json.pyLen]

/-- Unpacking the snapshot well-formedness flag into its field facts. -/
theorem wfSnapshot_fields {d : Json} (h : wfSnapshot d = true) :
    d.isObj = true ∧
    numAt2 d "solar" "voltage" = true ∧ numAt2 d "solar" "current" = true ∧
    numAt2 d "solar" "power" = true ∧ numAt2 d "solar" "temperature" = true ∧
    numAt2 d "solar" "efficiency" = true ∧
    numAt2 d "battery" "voltage" = true ∧ numAt2 d "battery" "current" = true ∧
    numAt2 d "battery" "power" = true ∧ numAt2 d "battery" "temperature" = true ∧
    numAt2 d "battery" "level" = true ∧ numAt2 d "battery" "health" = true ∧
    numAt2 d "grid" "voltage" = true ∧ numAt2 d "grid" "current" = true ∧
    numAt2 d "grid" "frequency" = true ∧ numAt2 d "grid" "power_factor" = true ∧
    numAt1 d "load" = true := by
  simpa only [wfSnapshot, Bool.and_eq_true, and_assoc] using h

/-- The metrics row completes on a well-formed snapshot. -/
theorem readMetrics_ok {d : Json} (h : wfSnapshot d = true) :
    ∃ m, readMetrics d = .ok m := by
  obtain ⟨hobj, hsv, hsc, hsp, hst, hse, hbv, hbc, hbp, hbt, hbl, hbh,
    hgv, hgc, hgf, hgpf, hld⟩ := wfSnapshot_fields h
  obtain ⟨qsp, esp⟩ := numAt2_getField2 hsp
  obtain ⟨qse, ese⟩ := numAt2_getField2 hse
  obtain ⟨qbl, ebl⟩ := numAt2_getField2 hbl
  obtain ⟨qbh, ebh⟩ := numAt2_getField2 hbh
  obtain ⟨qgv, egv⟩ := numAt2_getField2 hgv
  obtain ⟨qgpf, egpf⟩ := numAt2_getField2 hgpf
  obtain ⟨qld, eld⟩ := numAt1_getField hld
  refine ⟨⟨qsp, .num qse, .num qbl, .num qbh, .num qgv, .num qgpf, qld⟩, ?_⟩
  simp [readMetrics, esp, ese, ebl, ebh, egv, egpf, eld, Json.asNum,
    Bind.bind, Except.bind, pure, Except.pure]

/-- The details row completes on a well-formed snapshot. -/
theorem readDetails_ok {d : Json} (h : wfSnapshot d = true) :
    ∃ dt, readDetails d = .ok dt := by
  obtain ⟨hobj, hsv, hsc, hsp, hst, hse, hbv, hbc, hbp, hbt, hbl, hbh,
    hgv, hgc, hgf, hgpf, hld⟩ := wfSnapshot_fields h
  obtain ⟨qsv, esv⟩ := numAt2_getField2 hsv
  obtain ⟨qsc, esc⟩ := numAt2_getField2 hsc
  obtain ⟨qsp, esp⟩ := numAt2_getField2 hsp
  obtain ⟨qst, est⟩ := numAt2_getField2 hst
  obtain ⟨qse, ese⟩ := numAt2_getField2 hse
  obtain ⟨qbv, ebv⟩ := numAt2_getField2 hbv
  obtain ⟨qbc, ebc⟩ := numAt2_getField2 hbc
  obtain ⟨qbp, ebp⟩ := numAt2_getField2 hbp
  obtain ⟨qbt, ebt⟩ := numAt2_getField2 hbt
  obtain ⟨qbl, ebl⟩ := numAt2_getField2 hbl
  obtain ⟨qgv, egv⟩ := numAt2_getField2 hgv
  obtain ⟨qgc, egc⟩ := numAt2_getField2 hgc
  obtain ⟨qgf, egf⟩ := numAt2_getField2 hgf
  obtain ⟨qgpf, egpf⟩ := numAt2_getField2 hgpf
  refine ⟨⟨qsv, qsc, qsp, .num qst, qse, .num qse, qbv, qbc, qbp, .num qbt,
    qbl, .num qbl, .num qgv, qgc, .num qgf, .num qgpf, qgv⟩, ?_⟩
  simp [readDetails, esv, esc, esp, est, ese, ebv, ebc, ebp, ebt, ebl,
    egv, egc, egf, egpf, Json.asNum, Bind.bind, Except.bind, pure, Except.pure]

/-- The energy row completes on a well-formed snapshot. -/
theorem readEnergy_ok {d : Json} (h : wfSnapshot d = true) :
    ∃ ed, readEnergy d = .ok ed := by
  obtain ⟨hobj, hsv, hsc, hsp, hst, hse, hbv, hbc, hbp, hbt, hbl, hbh,
    hgv, hgc, hgf, hgpf, hld⟩ := wfSnapshot_fields h
  obtain ⟨qsp, esp⟩ := numAt2_getField2 hsp
  obtain ⟨qbp, ebp⟩ := numAt2_getField2 hbp
  obtain ⟨qld, eld⟩ := numAt1_getField hld
  refine ⟨⟨.num qsp, .num qbp, .num qld, qsp, qbp, qld⟩, ?_⟩
  simp [readEnergy, esp, ebp, eld, Json.asNum, Bind.bind, Except.bind,
    pure, Except.pure]

/-- The prediction success branch completes on a dict whose optional
`prediction` field is numeric and whose optional `features_used` field has a
length. -/
theorem readPredDetails_ok {p : Json} (hobj : p.isObj = true)
    (hp : (match p.look "prediction" with
           | some v => v.isNumV
           | none => true) = true)
    (hf : (match p.look "features_used" with
           | some v => lenable v
           | none => true) = true) :
    ∃ pd, readPredDetails p = .ok pd := by
  obtain ⟨fs, rfl⟩ := isObj_exists hobj
  have hv : ∃ q : ℚ, ((fs.lookup "prediction").getD (Json.num 0)).asNum = .ok q := by
    cases h1 : fs.lookup "prediction" with
    | none => exact ⟨0, by simp [Json.asNum]⟩
    | some v =>
      have : Json.look (.obj fs) "prediction" = some v := h1
      rw [this] at hp
      cases v <;> simp [Json.isNumV] at hp
      case num q => exact ⟨q, by simp [Json.asNum]⟩
  have hn : ∃ n, ((fs.lookup "features_used").getD (Json.arr [])).pyLen = .ok n := by
    cases h1 : fs.lookup "features_used" with
    | none => exact ⟨0, by simp [Json.pyLen]⟩
    | some v =>
      have : Json.look (.obj fs) "features_used" = some v := h1
      rw [this] at hf
      exact lenable_pyLen hf
  obtain ⟨q, hq⟩ := hv
  obtain ⟨n, hn2⟩ := hn
  refine ⟨⟨q, n, (fs.lookup "timestamp").getD (.str "N/A")⟩, ?_⟩
  simp [readPredDetails, Json.pyGet, hq, hn2, Bind.bind, Except.bind,
    pure, Except.pure]

/-- The prediction section completes on a well-formed prediction result. -/
theorem predSection_ok {pred : Option Json} (h : wfPrediction pred = true) :
    ∃ l, predSection pred = .ok l := by
  cases pred with
  | none => exact ⟨_, rfl⟩
  | some p =>
    by_cases ht : p.truthy = true
    · have h2 : p.isObj = true ∧
          (match p.look "prediction" with
           | some v => v.isNumV
           | none => true) = true ∧
          (match p.look "features_used" with
           | some v => lenable v
           | none => true) = true := by
        simpa only [wfPrediction, ht, Bool.not_true, Bool.false_or,
          Bool.and_eq_true, and_assoc] using h
      obtain ⟨hobj, hp2, hf2⟩ := h2
      obtain ⟨pd, hpd⟩ := readPredDetails_ok hobj hp2 hf2
      obtain ⟨s, hs⟩ := pyGet_ok_of_isObj hobj "status" Json.null
      by_cases hb : s.beqStr "success" = true
      · refine ⟨predElems pd, ?_⟩
        simp [predSection, ht, hs, hb, hpd, Bind.bind, Except.bind,
          pure, Except.pure]
      · refine ⟨[.warningBox predWarnMsg], ?_⟩
        simp [predSection, ht, hs, hb, Bind.bind, Except.bind,
          pure, Except.pure]
    · refine ⟨[.warningBox predWarnMsg], ?_⟩
      simp [predSection, ht]

/-- The sidebar model-status block completes on a well-formed model-info
result. -/
theorem modelStatusElems_ok {mi : Option Json} (h : wfModelInfo mi = true) :
    ∃ l, modelStatusElems mi = .ok l := by
  cases mi with
  | none => exact ⟨_, rfl⟩
  | some m =>
    by_cases ht : m.truthy = true
    · have hobj : m.isObj = true := by
        simpa only [wfModelInfo, ht, Bool.not_true, Bool.false_or] using h
      obtain ⟨ml, hml⟩ := pyGet_ok_of_isObj hobj "model_loaded" Json.null
      by_cases ht2 : ml.truthy = true
      · obtain ⟨mt, hmt⟩ := pyGet_ok_of_isObj hobj "model_type" (.str "Unknown")
        refine ⟨[.successBox "🤖 ML Model: Active", .infoVal "Model Type" mt], ?_⟩
        simp [modelStatusElems, ht, hml, ht2, hmt, Bind.bind, Except.bind,
          pure, Except.pure]
      · refine ⟨[.warningBox "🤖 ML Model: Not Loaded"], ?_⟩
        simp [modelStatusElems, ht, hml, ht2, Bind.bind, Except.bind,
          pure, Except.pure]
    · refine ⟨[.warningBox "🤖 ML Model: Not Loaded"], ?_⟩
      simp [modelStatusElems, ht]

/-- The sidebar completes on a well-formed model-info result. -/
theorem sidebar_ok {mi : Option Json} (h : wfModelInfo mi = true)
    (data : Option Json) : ∃ l, sidebar mi data = .ok l := by
  obtain ⟨ms, hms⟩ := modelStatusElems_ok h
  refine ⟨ms ++ [if truthyOpt data then Elem.successBox "✓ API Connected"
    else Elem.errorBox "✗ API Disconnected"], ?_⟩
  simp [sidebar, hms, Bind.bind, Except.bind, pure, Except.pure]

/-- The main content completes on a well-formed (or absent/falsy) snapshot
and a well-formed prediction result. -/
theorem renderMain_ok {nowIso : String} {data pred : Option Json}
    {interval : ℕ} {clicked : Bool}
    (hd : wfSnapshotOpt data = true) (hp : wfPrediction pred = true) :
    ∃ l, renderMain nowIso data pred interval clicked = .ok l := by
  cases data with
  | none => exact ⟨_, rfl⟩
  | some d =>
    by_cases ht : d.truthy = true
    · have hwf : wfSnapshot d = true := by
        simpa only [wfSnapshotOpt, ht, Bool.not_true, Bool.false_or] using hd
      have hobj : d.isObj = true := (wfSnapshot_fields hwf).1
      obtain ⟨ts, hts⟩ := pyGet_ok_of_isObj hobj "timestamp" (.str nowIso)
      obtain ⟨m, hm⟩ := readMetrics_ok hwf
      obtain ⟨dt, hdt⟩ := readDetails_ok hwf
      obtain ⟨ps, hps⟩ := predSection_ok hp
      obtain ⟨es, hes⟩ := readEnergy_ok hwf
      refine ⟨[.caption ts, .subheader "📊 Real-Time Metrics"] ++ metricsElems m ++
        [.subheader "🔍 Detailed System Data"] ++ detailsElems dt ++
        [.subheader "🤖 AI/ML Predictions", .predictCall] ++ ps ++
        [.subheader "⚖️ Energy Balance"] ++ energyElems es ++
        [.sleepRerun interval], ?_⟩
      simp [renderMain, ht, hts, hm, hdt, hps, hes, Bind.bind, Except.bind,
        pure, Except.pure]
    · refine ⟨errorTrace clicked, ?_⟩
      simp [renderMain, ht]

/-! ## Claim C7 -/

/-- C7 counterexample: a truthy snapshot missing the expected `solar` key
makes the cycle abort with an uncaught `KeyError` from line 163's
`data['solar']['power']` — the field accesses are not guarded, so the claim
as stated (every fetched input completes the cycle) is false. -/
theorem c7_counterexample :
    dashboardCycle (some 10) "t" none (some (Json.obj [("x", Json.num 1)]))
      none false = .error (PyErr.keyError "solar") := by
  rfl

/-- C7 amended: no exception escapes the cycle for fetch-level failures or
for fetched values of the shape the data model describes — an absent or
falsy snapshot takes the error branch, and a snapshot carrying the expected
numeric fields (with a processable prediction and model-info result)
completes the full render; but a truthy snapshot missing expected nested
fields aborts the cycle with an uncaught exception. -/
theorem c7_render_completes_on_wf {choice : Option ℕ} {nowIso : String}
    {mi data pred : Option Json} {clicked : Bool}
    (hm : wfModelInfo mi = true) (hd : wfSnapshotOpt data = true)
    (hp : wfPrediction pred = true) :
    isOkB (dashboardCycle choice nowIso mi data pred clicked) = true := by
  obtain ⟨sb, hsb⟩ := sidebar_ok hm data
  obtain ⟨mn, hmn⟩ := @renderMain_ok nowIso data pred (slider 5 60 10 choice)
    clicked hd hp
  simp [dashboardCycle, hsb, hmn, isOkB, Bind.bind, Except.bind,
    pure, Except.pure]

/-- Witness for C7 amended: a concrete well-formed cycle completes. -/
theorem c7_render_completes_on_wf_witness :
    isOkB (dashboardCycle (some 10) "t" (some sampleMiNotLoaded)
      (some sampleData) (some samplePred) false) = true :=
  c7_render_completes_on_wf (by decide) (by decide) (by decide)

/-! ## Claim C8 -/

/-- C8 counterexample: the gauge the success branch draws has no fixed lower
axis bound — the script passes the literal `[None, 100]`, so its range is
not the claimed fixed `[0, 100]`. -/
theorem c8_counterexample :
    Elem.gaugeChart (makeGauge 50) ∈ predElems ⟨50, 2, .str "t"⟩ ∧
    (makeGauge 50).rangeLo ≠ some 0 := by
  refine ⟨?_, by decide⟩
  simp [predElems, makeGauge]

/-- C8 amended: the prediction section draws exactly one gauge indicator,
bound to `prediction.get('prediction', 0)` coerced to a number, with upper
axis bound fixed at 100 but the lower bound left unset (`None`), and the
three fixed color bands [0,30], [30,70], [70,100]. -/
theorem c8_gauge_config {p : Json} {pd : PredData}
    (h : readPredDetails p = .ok pd) :
    (predElems pd).filter Elem.isGauge = [.gaugeChart (makeGauge pd.value)] ∧
    (makeGauge pd.value).value = pd.value ∧
    (makeGauge pd.value).rangeLo = none ∧
    (makeGauge pd.value).rangeHi = 100 ∧
    (makeGauge pd.value).steps
      = [(0, 30, "lightgray"), (30, 70, "gray"), (70, 100, "darkgray")] ∧
    ∃ raw, p.pyGet "prediction" (.num 0) = .ok raw ∧ raw.asNum = .ok pd.value := by
  refine ⟨by simp [predElems, Elem.isGauge], rfl, rfl, rfl, rfl, ?_⟩
  unfold readPredDetails at h
  obtain ⟨raw, hraw, h⟩ := bind_ok h
  obtain ⟨v, hv, h⟩ := bind_ok h
  obtain ⟨f, hf, h⟩ := bind_ok h
  obtain ⟨nf, hnf, h⟩ := bind_ok h
  obtain ⟨ts, hts, h⟩ := bind_ok h
  simp only [pure, Except.pure] at h
  injection h with h
  refine ⟨raw, hraw, ?_⟩
  rw [← h]
  exact hv

/-- Witness for C8 amended at the sample prediction result. -/
theorem c8_gauge_config_witness :
    (makeGauge 42).rangeLo = none ∧ (makeGauge 42).rangeHi = 100 := by
  have h := @c8_gauge_config samplePred ⟨42, 2, .str "2026-10-12T10:00:01"⟩ rfl
  exact ⟨h.2.2.1, h.2.2.2.1⟩

/-! ## Claim C10 -/

/-- C10: when the prediction result is truthy with status `"success"` but
has no `prediction` field, the section still renders: the predicted-output
metric and the gauge are drawn with the default value 0. -/
theorem c10_missing_prediction_defaults_zero {p : Json} {pd : PredData}
    (htr : p.truthy = true)
    (hst : p.pyGet "status" Json.null = .ok (.str "success"))
    (hmiss : p.look "prediction" = none)
    (hrd : readPredDetails p = .ok pd) :
    predSection (some p) = .ok (predElems pd) ∧ pd.value = 0 ∧
    Elem.metricNum "🔮 Predicted Solar Output (Next Hour)" 0 (Json.str "ML Forecast")
      ∈ predElems pd ∧
    Elem.gaugeChart (makeGauge 0) ∈ predElems pd := by
  have hv0 : pd.value = 0 := by
    unfold readPredDetails at hrd
    obtain ⟨raw, hraw, h2⟩ := bind_ok hrd
    obtain ⟨v, hval, h2⟩ := bind_ok h2
    obtain ⟨fs, rfl⟩ : ∃ fs, p = Json.obj fs := by
      cases p <;> first
        | exact ⟨_, rfl⟩
        | simp [Json.pyGet] at hraw
    simp only [Json.look] at hmiss
    simp only [Json.pyGet, hmiss, Option.getD] at hraw
    injection hraw with hraw
    subst hraw
    simp only [Json.asNum] at hval
    injection hval with hval
    subst hval
    obtain ⟨f, hf, h2⟩ := bind_ok h2
    obtain ⟨nf, hnf, h2⟩ := bind_ok h2
    obtain ⟨ts, hts, h2⟩ := bind_ok h2
    simp only [pure, Except.pure] at h2
    injection h2 with h2
    rw [← h2]
  have hsec : predSection (some p) = .ok (predElems pd) := by
    simp [predSection, htr, hst, hrd, Json.beqStr, Bind.bind, Except.bind,
      pure, Except.pure]
  refine ⟨hsec, hv0, ?_, ?_⟩ <;> simp [predElems, hv0]

/-- Witness for C10 at a response carrying only the status field. -/
theorem c10_missing_prediction_defaults_zero_witness :
    predSection (some (Json.obj [("status", Json.str "success")]))
      = .ok (predElems ⟨0, 0, .str "N/A"⟩) ∧
    Elem.gaugeChart (makeGauge 0) ∈ predElems (⟨0, 0, .str "N/A"⟩ : PredData) := by
  have h := @c10_missing_prediction_defaults_zero
    (Json.obj [("status", Json.str "success")]) ⟨0, 0, .str "N/A"⟩
    (by decide) rfl rfl rfl
  exact ⟨h.1, h.2.2.2⟩

end Microgrid
